import Mathlib

/-!
Verification of the poise interaction-dispatch engine against its specification.

The development shallowly embeds the corpus:
* `src/dispatch/slash.rs` — command resolution (`find_matching_command`),
  extraction (`extract_command`, `extract_command_and_run_checks`), execution
  (`run_command`, `dispatch_interaction`) and the autocomplete path
  (`run_autocomplete`, `dispatch_autocomplete`);
* `src/reply/builder.rs` — the `CreateReply` builder and `complete_from_ctx`.

Handlers, the admission-check pipeline and the response transport are external
collaborators; they are embedded as abstract behaviours, and every observable
side effect (check invocation, hooks, handler runs, log warnings, response
transmission) is recorded in an explicit event trace so that temporal claims
about the dispatch sequence can be stated.
-/

namespace Poise

/-- Behaviour of a registered command handler (`slash_action`, or the payload of a
context-menu action): it can return successfully, return an error, or panic. -/
inductive ActionBehavior : Type where
  | ok
  | err (e : String)
  | panics (payload : String)

/-- Context-menu action registered on a command: `ContextMenuCommandAction::User`
or `ContextMenuCommandAction::Message` (from `run_command`'s match). -/
inductive CtxMenuAction : Type where
  | user (b : ActionBehavior)
  | message (b : ActionBehavior)

/-- Behaviour of a parameter's autocomplete callback: produce a response, fail
with an error, or panic. -/
inductive AcBehavior : Type where
  | ok (response : String)
  | err (e : String)
  | panics (payload : String)

/-- A declared command parameter, as used by `run_autocomplete`: a name and an
optional autocomplete callback. -/
structure Param : Type where
  name : String
  autocomplete_callback : Option AcBehavior

/-- Value of a resolved interaction option (`serenity::ResolvedValue`), restricted
to the shapes the dispatch code inspects: nested subcommand / subcommand-group
option lists, a focused autocomplete value, or an opaque scalar. -/
inductive RValue : Type where
  | subCommand (opts : List (String × RValue))
  | subCommandGroup (opts : List (String × RValue))
  | autocomplete (value : String)
  | scalar (value : String)

/-- A resolved interaction option (`serenity::ResolvedOption`): a name and a value. -/
abbrev ROption : Type := String × RValue

/-- Name of a resolved option. -/
def ROption.name (o : ROption) : String := o.1

/-- Value of a resolved option. -/
def ROption.value (o : ROption) : RValue := o.2

/-- A framework command node (`crate::Command`): name, optional context-menu name,
subcommands, the optional slash and context-menu actions, declared parameters and
the command-level ephemeral default. -/
inductive Cmd : Type where
  | mk (name : String) (context_menu_name : Option String) (subcommands : List Cmd)
      (slash_action : Option ActionBehavior) (context_menu_action : Option CtxMenuAction)
      (parameters : List Param) (ephemeral : Bool)

/-- Name of a command. -/
def Cmd.name : Cmd → String
  | .mk n _ _ _ _ _ _ => n

/-- Context-menu name of a command. -/
def Cmd.context_menu_name : Cmd → Option String
  | .mk _ c _ _ _ _ _ => c

/-- Subcommands of a command. -/
def Cmd.subcommands : Cmd → List Cmd
  | .mk _ _ s _ _ _ _ => s

/-- Slash action of a command. -/
def Cmd.slash_action : Cmd → Option ActionBehavior
  | .mk _ _ _ a _ _ _ => a

/-- Context-menu action of a command. -/
def Cmd.context_menu_action : Cmd → Option CtxMenuAction
  | .mk _ _ _ _ a _ _ => a

/-- Declared parameters of a command. -/
def Cmd.parameters : Cmd → List Param
  | .mk _ _ _ _ _ p _ => p

/-- Command-level ephemeral default of a command. -/
def Cmd.ephemeral : Cmd → Bool
  | .mk _ _ _ _ _ _ e => e

theorem Cmd.sizeOf_subcommands (c : Cmd) : sizeOf c.subcommands < sizeOf c := by
  cases c with
  | mk n cm s sa ca p e => simp [Cmd.subcommands]; omega

/-- First subcommand or subcommand-group option of an option list, with its nested
options — the `find_map` in `find_matching_command` (src/dispatch/slash.rs:17-23). -/
def findSubOption : List ROption → Option (String × List ROption)
  | [] => none
  | (n, RValue.subCommand o) :: _ => some (n, o)
  | (n, RValue.subCommandGroup o) :: _ => some (n, o)
  | _ :: rest => findSubOption rest

/-- Embedding of `find_matching_command` (src/dispatch/slash.rs:6-36): walk the
sibling list; a sibling is skipped when the interaction name matches neither its
name nor its context-menu name; at a match, if the option list carries a
subcommand/subcommand-group option, push the sibling onto `parent_commands` and
recurse into its subcommands (falling through to later siblings when the
recursion fails — the pushed entry is not popped), otherwise return the sibling
with the current option list. The returned pair is (`find_map` result, final
state of the `parent_commands` vector). -/
def find_matching_command (interaction_name : String) (interaction_options : List ROption)
    (commands : List Cmd) (parent_commands : List Cmd) :
    Option (Cmd × List ROption) × List Cmd :=
  match commands with
  | [] => (none, parent_commands)
  | cmd :: rest =>
    if interaction_name ≠ cmd.name ∧ (some interaction_name) ≠ cmd.context_menu_name then
      find_matching_command interaction_name interaction_options rest parent_commands
    else
      match findSubOption interaction_options with
      | some (sub_name, sub_options) =>
        match find_matching_command sub_name sub_options cmd.subcommands
            (parent_commands ++ [cmd]) with
        | (some hit, ps) => (some hit, ps)
        | (none, ps) => find_matching_command interaction_name interaction_options rest ps
      | none => (some (cmd, interaction_options), parent_commands)
termination_by sizeOf commands
decreasing_by
  · simp
  · have := Cmd.sizeOf_subcommands cmd; simp; omega
  · simp

/-- Whether a command matches an interaction name: the name equals the command's
name, or equals its registered context-menu name. -/
def matchesName (interaction_name : String) (c : Cmd) : Bool :=
  interaction_name == c.name || (some interaction_name) == c.context_menu_name

/-- Specification-side resolution relation, written from the spec's words
(§4.1): at each level the first sibling whose name (or context-menu name)
matches the current token is selected; if the option list carries a
subcommand/subcommand-group option, recursion descends into that option's
nested name/options against the matched node's subcommand list, pushing the
matched node onto the ancestor chain; otherwise the matched node is the leaf
and keeps the current option list as residual arguments.
`ResolvesTo name opts cmds ancestors leaf residual` reads: the interaction
`(name, opts)` traces a path through the tree `cmds` ending at `leaf`, with
ancestor chain `ancestors` and residual options `residual`. -/
inductive ResolvesTo : String → List ROption → List Cmd → List Cmd → Cmd → List ROption → Prop where
  | leaf {name : String} {opts : List ROption} {cmds : List Cmd} {c : Cmd}
      (hfind : cmds.find? (matchesName name) = some c)
      (hleaf : findSubOption opts = none) :
      ResolvesTo name opts cmds [] c opts
  | nest {name : String} {opts : List ROption} {cmds : List Cmd} {c : Cmd}
      {sub_name : String} {sub_options : List ROption} {ancestors : List Cmd}
      {leaf : Cmd} {residual : List ROption}
      (hfind : cmds.find? (matchesName name) = some c)
      (hsub : findSubOption opts = some (sub_name, sub_options))
      (hrec : ResolvesTo sub_name sub_options c.subcommands ancestors leaf residual) :
      ResolvesTo name opts cmds (c :: ancestors) leaf residual

theorem matchesName_false (n : String) (c : Cmd) (h : matchesName n c = false) :
    n ≠ c.name ∧ (some n) ≠ c.context_menu_name := by
  simpa [matchesName, not_or] using h

theorem matchesName_true (n : String) (c : Cmd) (h : matchesName n c = true) :
    ¬(n ≠ c.name ∧ (some n) ≠ c.context_menu_name) := by
  simp only [matchesName, Bool.or_eq_true, beq_iff_eq] at h
  tauto

theorem find_matching_command_skip (name : String) (opts : List ROption) (cmd : Cmd)
    (rest : List Cmd) (acc : List Cmd) (hm : matchesName name cmd = false) :
    find_matching_command name opts (cmd :: rest) acc = find_matching_command name opts rest acc := by
  have h1 := matchesName_false name cmd hm
  rw [find_matching_command]
  rw [if_pos h1]

theorem find_matching_command_hit_leaf (name : String) (opts : List ROption) (cmd : Cmd)
    (rest : List Cmd) (acc : List Cmd) (hm : matchesName name cmd = true)
    (hs : findSubOption opts = none) :
    find_matching_command name opts (cmd :: rest) acc = (some (cmd, opts), acc) := by
  have h1 := matchesName_true name cmd hm
  rw [find_matching_command]
  rw [if_neg h1, hs]

theorem find_matching_command_hit_nest (name : String) (opts : List ROption) (cmd : Cmd)
    (rest : List Cmd) (acc : List Cmd) (sub_name : String) (sub_options : List ROption)
    (hm : matchesName name cmd = true) (hs : findSubOption opts = some (sub_name, sub_options)) :
    find_matching_command name opts (cmd :: rest) acc =
      (match find_matching_command sub_name sub_options cmd.subcommands (acc ++ [cmd]) with
       | (some hit, ps) => (some hit, ps)
       | (none, ps) => find_matching_command name opts rest ps) := by
  have h1 := matchesName_true name cmd hm
  rw [find_matching_command]
  rw [if_neg h1, hs]

theorem find_of_first_match_leaf (name : String) {cmds : List Cmd} {c : Cmd}
    (hfind : cmds.find? (matchesName name) = some c) (opts : List ROption)
    (hs : findSubOption opts = none) (acc : List Cmd) :
    find_matching_command name opts cmds acc = (some (c, opts), acc) := by
  induction cmds generalizing acc with
  | nil => simp at hfind
  | cons cmd rest ih =>
    cases hmc : matchesName name cmd with
    | false =>
      rw [List.find?_cons_of_neg _ (by simp [hmc])] at hfind
      rw [find_matching_command_skip name opts cmd rest acc hmc]
      exact ih hfind acc
    | true =>
      rw [List.find?_cons_of_pos _ hmc] at hfind
      have hce : cmd = c := by injection hfind
      subst hce
      exact find_matching_command_hit_leaf name opts cmd rest acc hmc hs

theorem find_of_first_match_nest (name : String) {cmds : List Cmd} {c : Cmd}
    (hfind : cmds.find? (matchesName name) = some c) (opts : List ROption)
    {sub_name : String} {sub_options : List ROption} {leaf : Cmd} {residual : List ROption}
    {ancestors : List Cmd}
    (hs : findSubOption opts = some (sub_name, sub_options))
    (hsub : ∀ acc2, find_matching_command sub_name sub_options c.subcommands acc2
        = (some (leaf, residual), acc2 ++ ancestors))
    (acc : List Cmd) :
    find_matching_command name opts cmds acc = (some (leaf, residual), acc ++ (c :: ancestors)) := by
  induction cmds generalizing acc with
  | nil => simp at hfind
  | cons cmd rest ih =>
    cases hmc : matchesName name cmd with
    | false =>
      rw [List.find?_cons_of_neg _ (by simp [hmc])] at hfind
      rw [find_matching_command_skip name opts cmd rest acc hmc]
      exact ih hfind acc
    | true =>
      rw [List.find?_cons_of_pos _ hmc] at hfind
      have hce : cmd = c := by injection hfind
      subst hce
      rw [find_matching_command_hit_nest name opts cmd rest acc sub_name sub_options hmc hs]
      rw [hsub (acc ++ [cmd])]
      simp

theorem resolvesTo_find {name : String} {opts : List ROption} {cmds : List Cmd}
    {ancestors : List Cmd} {leaf : Cmd} {residual : List ROption}
    (h : ResolvesTo name opts cmds ancestors leaf residual) :
    ∀ acc, find_matching_command name opts cmds acc = (some (leaf, residual), acc ++ ancestors) := by
  induction h with
  | leaf hfind hleaf =>
    intro acc
    simpa using find_of_first_match_leaf _ hfind _ hleaf acc
  | nest hfind hsub hrec ih =>
    intro acc
    exact find_of_first_match_nest _ hfind _ hsub ih acc

/-- Parameter `"key"` of the scenario's `"set"` subcommand. -/
def keyParam : Param := { name := "key", autocomplete_callback := none }

/-- Scenario subcommand `"set"`. -/
def setCmd : Cmd := .mk "set" none [] (some .ok) none [keyParam] false

/-- Scenario root command `"config"` with subcommand `"set"`. -/
def configCmd : Cmd := .mk "config" none [setCmd] none none [] false

/-- Scenario interaction options: one subcommand option `"set"` containing
`{name: "key", value: "x"}`. -/
def configSetOptions : List ROption := [("set", RValue.subCommand [("key", RValue.scalar "x")])]

/-- C1: for every command tree and every interaction whose name and nested
subcommand/subcommand-group options trace a path through the tree (`ResolvesTo`,
the spec's contract), `find_matching_command` returns exactly the leaf at that
path together with that leaf's own option list as the residual arguments. -/
theorem resolver_returns_traced_leaf {name : String} {opts : List ROption} {cmds : List Cmd}
    {ancestors : List Cmd} {leaf : Cmd} {residual : List ROption}
    (h : ResolvesTo name opts cmds ancestors leaf residual) :
    (find_matching_command name opts cmds []).1 = some (leaf, residual) := by
  rw [resolvesTo_find h []]

/-- C1 witness: the spec's scenario — root `"config"` with subcommand `"set"`
taking parameter `"key"`; interaction `"config"` carrying subcommand option
`"set"` with option `{name: "key", value: "x"}` resolves to the `"set"` leaf
with residual options `[{key: "x"}]`. -/
theorem resolver_returns_traced_leaf_witness :
    ResolvesTo "config" configSetOptions [configCmd] [configCmd] setCmd
      [("key", RValue.scalar "x")]
    ∧ (find_matching_command "config" configSetOptions [configCmd] []).1
      = some (setCmd, [("key", RValue.scalar "x")]) := by
  have hd : ResolvesTo "config" configSetOptions [configCmd] [configCmd] setCmd
      [("key", RValue.scalar "x")] := by
    have h1 : ResolvesTo "set" [("key", RValue.scalar "x")] configCmd.subcommands [] setCmd
        [("key", RValue.scalar "x")] :=
      ResolvesTo.leaf (by simp [configCmd, Cmd.subcommands, setCmd, matchesName, Cmd.name,
        Cmd.context_menu_name]) (by simp [findSubOption])
    exact ResolvesTo.nest (by simp [configCmd, matchesName, Cmd.name, Cmd.context_menu_name])
      (by simp [configSetOptions, findSubOption]) h1
  exact ⟨hd, resolver_returns_traced_leaf hd⟩

/-- Sibling that matches the counterexample's interaction name but has no
subcommands, so recursion into it is abandoned. -/
def cexIgnored : Cmd := .mk "x" none [] (some .ok) none [] false

/-- Leaf the counterexample's interaction actually resolves to. -/
def cexTarget : Cmd := .mk "y" none [] (some .ok) none [] false

/-- Second sibling (same name `"x"`) whose subtree carries the leaf. -/
def cexGroup : Cmd := .mk "x" none [cexTarget] none none [] false

/-- Counterexample interaction options: one subcommand option `"y"`. -/
def cexOptions : List ROption := [("y", RValue.subCommand [])]

/-- C7 counterexample: with two siblings both named `"x"`, the resolver abandons
the first (it has no subcommand `"y"`) but leaves it in `parent_commands`: the
returned leaf is `cexTarget` (a child of `cexGroup` only, and `cexIgnored` has
no children at all), yet the parent list is `[cexIgnored, cexGroup]` — a stale
entry from an explored-and-abandoned sibling branch. -/
theorem parent_chain_counterexample :
    find_matching_command "x" cexOptions [cexIgnored, cexGroup] []
      = (some (cexTarget, []), [cexIgnored, cexGroup])
    ∧ cexIgnored.subcommands = [] ∧ cexTarget ∈ cexGroup.subcommands := by
  refine ⟨?_, rfl, by simp [cexGroup, Cmd.subcommands]⟩
  simp [find_matching_command, findSubOption, cexIgnored, cexGroup, cexTarget, Cmd.name,
    Cmd.context_menu_name, Cmd.subcommands, cexOptions]

/-- C7 (amended): whenever the interaction traces a first-match path through the
tree (`ResolvesTo`), the resolver's parent-commands output (starting from an
empty accumulator) is exactly the ordered ancestor chain of the returned leaf;
stale entries from abandoned sibling branches can appear only when a sibling
matches the name but its subtree fails to resolve, which requires duplicate
sibling names. -/
theorem parent_chain_exact_on_traced_path {name : String} {opts : List ROption}
    {cmds : List Cmd} {ancestors : List Cmd} {leaf : Cmd} {residual : List ROption}
    (h : ResolvesTo name opts cmds ancestors leaf residual) :
    find_matching_command name opts cmds [] = (some (leaf, residual), ancestors) := by
  simpa using resolvesTo_find h []

/-- C7 witness: on the `"config"`/`"set"` scenario the parent list is exactly
the ancestor chain `[configCmd]`. -/
theorem parent_chain_exact_on_traced_path_witness :
    ResolvesTo "config" configSetOptions [configCmd] [configCmd] setCmd
      [("key", RValue.scalar "x")]
    ∧ find_matching_command "config" configSetOptions [configCmd] []
      = (some (setCmd, [("key", RValue.scalar "x")]), [configCmd]) := by
  have hd : ResolvesTo "config" configSetOptions [configCmd] [configCmd] setCmd
      [("key", RValue.scalar "x")] := by
    have h1 : ResolvesTo "set" [("key", RValue.scalar "x")] configCmd.subcommands [] setCmd
        [("key", RValue.scalar "x")] :=
      ResolvesTo.leaf (by simp [configCmd, Cmd.subcommands, setCmd, matchesName, Cmd.name,
        Cmd.context_menu_name]) (by simp [findSubOption])
    exact ResolvesTo.nest (by simp [configCmd, matchesName, Cmd.name, Cmd.context_menu_name])
      (by simp [configSetOptions, findSubOption]) h1
  exact ⟨hd, parent_chain_exact_on_traced_path hd⟩

/-- First sibling of the C9 counterexample: named `"dup"`, no subcommands. -/
def dupFirst : Cmd := .mk "dup" none [] (some .ok) none [] false

/-- Leaf under the second `"dup"` sibling. -/
def dupChild : Cmd := .mk "child" none [] (some .ok) none [] false

/-- Second sibling of the C9 counterexample, also named `"dup"`. -/
def dupSecond : Cmd := .mk "dup" none [dupChild] none none [] false

/-- C9 counterexample interaction options: one subcommand option `"child"`. -/
def dupOptions : List ROption := [("child", RValue.subCommand [])]

/-- C9 counterexample: two siblings both named `"dup"`; the first in declaration
order is `dupFirst`, but the resolver returns `dupChild`, a node of the second
sibling's subtree — so the first matching sibling does not always win: the
resolver falls through to a later duplicate when the first one's subtree fails
to resolve. -/
theorem first_sibling_counterexample :
    [dupFirst, dupSecond].find? (matchesName "dup") = some dupFirst
    ∧ (find_matching_command "dup" dupOptions [dupFirst, dupSecond] []).1 = some (dupChild, [])
    ∧ dupChild ≠ dupFirst ∧ dupChild ∉ dupFirst.subcommands := by
  refine ⟨by simp [dupFirst, matchesName, Cmd.name, Cmd.context_menu_name], ?_, ?_, by
    simp [dupFirst, Cmd.subcommands]⟩
  · simp [find_matching_command, findSubOption, dupFirst, dupSecond, dupChild, Cmd.name,
      Cmd.context_menu_name, Cmd.subcommands, dupOptions]
  · simp [dupChild, dupFirst]

/-- C9 (amended): the resolver tries siblings in declaration order and returns
the first whose resolution succeeds; in particular, when the interaction
carries no subcommand/subcommand-group option, the first sibling whose name or
context-menu name matches is returned, regardless of later same-named
siblings — resolution is a total function of its inputs and assumes no
uniqueness of names. -/
theorem first_matching_sibling_wins_for_leaves (name : String) (opts : List ROption)
    {cmds : List Cmd} {c : Cmd} (acc : List Cmd)
    (hfind : cmds.find? (matchesName name) = some c) (hs : findSubOption opts = none) :
    (find_matching_command name opts cmds acc).1 = some (c, opts) := by
  rw [find_of_first_match_leaf name hfind opts hs acc]

/-- First of two same-named leaf siblings used for the C9 witness. -/
def tieFirst : Cmd := .mk "tie" none [] (some .ok) none [] false

/-- Second of two same-named leaf siblings used for the C9 witness. -/
def tieSecond : Cmd := .mk "tie" none [] (some (.err "e")) none [] true

/-- C9 witness: with two leaf siblings both named `"tie"`, the first in
declaration order is returned. -/
theorem first_matching_sibling_wins_for_leaves_witness :
    (find_matching_command "tie" [] [tieFirst, tieSecond] []).1 = some (tieFirst, []) :=
  first_matching_sibling_wins_for_leaves "tie" [] []
    (by simp [tieFirst, matchesName, Cmd.name, Cmd.context_menu_name]) rfl

/-- Observable events of a dispatch: check-pipeline invocations, hooks, handler
runs, log warnings and autocomplete response transmissions. -/
inductive Event : Type where
  | checkInvoked
  | preCommand
  | ranSlashAction
  | ranUserContextAction
  | ranMessageContextAction
  | postCommand
  | warnedUnknownCommandType (code : Nat)
  | warnedNoFocusedOption
  | invokedAutocompleteCallback (input : String)
  | warnedAutocompleteError (e : String)
  | sentAutocompleteResponse (response : String)
  | warnedAutocompleteSendError (e : String)
  | warnedNonAutocompleteInteraction

/-- Kind of a command interaction (`serenity::CommandType`): chat input, user
context menu, message context menu, or an unrecognized future protocol kind. -/
inductive CommandType : Type where
  | chatInput
  | user
  | message
  | unknown (code : Nat)

/-- Resolved click target of a context-menu interaction
(`serenity::ResolvedTarget`). -/
inductive ResolvedTarget : Type where
  | user (name : String)
  | message (id : String)

/-- An inbound command interaction: name, kind, optional resolved context-menu
target, and the resolved option tree. -/
structure Interaction : Type where
  name : String
  kind : CommandType
  target : Option ResolvedTarget
  options : List ROption

/-- Wrapper distinguishing command from autocomplete interactions
(`crate::CommandOrAutocompleteInteraction`). -/
inductive CommandOrAutocompleteInteraction : Type where
  | command (i : Interaction)
  | autocomplete (i : Interaction)

/-- Underlying interaction data of either wrapper variant. -/
def CommandOrAutocompleteInteraction.data : CommandOrAutocompleteInteraction → Interaction
  | .command i => i
  | .autocomplete i => i

/-- Framework error surface (`crate::FrameworkError`), restricted to the
variants the dispatch path produces. -/
inductive FrameworkError : Type where
  | unknownInteraction (interaction : CommandOrAutocompleteInteraction)
  | commandStructureMismatch (description : String)
  | checkRejection (reason : String)
  | command (e : String)
  | commandPanic (payload : String)

/-- Result of running code that may panic: either a caught-up panic payload or
the computed value. -/
inductive PanicOr (α : Type) : Type where
  | panicked (payload : String)
  | returned (a : α)

/-- Environment and observation state threaded through a dispatch: the outcomes
the admission pipeline will produce on its successive invocations, the outcome
of transmitting an autocomplete response, and the event trace. -/
structure DispatchState : Type where
  checks : List (Option String)
  send_result : Option String
  trace : List Event

/-- Modelled from the spec: `check_permissions_and_cooldown` lives in
`dispatch/common.rs`, which is not part of this corpus. Per §4.2 it runs the
admission pipeline (global checks, command checks, permission checks, cooldown
check) and either allows or rejects with a reason; distinct invocations may
observe different outcomes (cooldown state can change between checkpoints), so
the environment supplies the outcome of each successive invocation in
`DispatchState.checks`, consumed one per call, an exhausted list meaning the
pipeline allows. Every invocation is recorded in the trace. -/
def check_permissions_and_cooldown (st : DispatchState) :
    Except FrameworkError Unit × DispatchState :=
  match st.checks with
  | [] => (.ok (), { st with trace := st.trace ++ [Event.checkInvoked] })
  | none :: rest =>
    (.ok (), { st with checks := rest, trace := st.trace ++ [Event.checkInvoked] })
  | some reason :: rest =>
    (.error (.checkRejection reason),
      { st with checks := rest, trace := st.trace ++ [Event.checkInvoked] })

/-- Embedding of `extract_command` (src/dispatch/slash.rs:42-77): resolve the
interaction's name and options against the command tree; on failure return
`FrameworkError::UnknownInteraction` carrying the interaction; on success
return the matched command, its residual options and the parent chain. (In the
source the resolved options and the parent vector are passed in by the caller
purely for lifetime reasons; here they are derived from the interaction and
returned.) -/
def extract_command (commands : List Cmd) (interaction : CommandOrAutocompleteInteraction) :
    Except FrameworkError (Cmd × List ROption × List Cmd) :=
  match find_matching_command interaction.data.name interaction.data.options commands [] with
  | (none, _) => .error (.unknownInteraction interaction)
  | (some (command, leaf_options), parents) => .ok (command, leaf_options, parents)

/-- Embedding of `extract_command_and_run_checks` (src/dispatch/slash.rs:81-104):
extract the command (wrapping the interaction in the `Command` variant) and run
the permission-and-cooldown pipeline once. -/
def extract_command_and_run_checks (commands : List Cmd) (interaction : Interaction)
    (st : DispatchState) :
    Except FrameworkError (Cmd × List ROption × List Cmd) × DispatchState :=
  match extract_command commands (.command interaction) with
  | .error e => (.error e, st)
  | .ok ctx =>
    match check_permissions_and_cooldown st with
    | (.error e, st2) => (.error e, st2)
    | (.ok _, st2) => (.ok ctx, st2)

/-- Execute a handler behaviour, recording the given trace event for the run. -/
def runAction (b : ActionBehavior) (ev : Event) (st : DispatchState) :
    PanicOr (Except String Unit) × DispatchState :=
  let st2 := { st with trace := st.trace ++ [ev] }
  match b with
  | .ok => (.returned (.ok ()), st2)
  | .err e => (.returned (.error e), st2)
  | .panics p => (.panicked p, st2)

/-- Tail of `run_command` (src/dispatch/slash.rs:153-157): propagate the action
result (`action_result?`), then invoke the `post_command` hook and succeed. An
error returned by the handler is surfaced as `FrameworkError::Command`. -/
def finishAction (r : PanicOr (Except String Unit) × DispatchState) :
    PanicOr (Except FrameworkError Unit) × DispatchState :=
  match r with
  | (.panicked p, st) => (.panicked p, st)
  | (.returned (.error e), st) => (.returned (.error (.command e)), st)
  | (.returned (.ok _), st) =>
    (.returned (.ok ()), { st with trace := st.trace ++ [Event.postCommand] })

/-- The `CommandStructureMismatch` description `run_command` uses
(src/dispatch/slash.rs:117-121). -/
def structureMismatchDescription : String :=
  "received interaction type but command contained no matching action or interaction contained no matching context menu object"

/-- Embedding of `run_command` (src/dispatch/slash.rs:108-158): run the
permission-and-cooldown pipeline, invoke the `pre_command` hook, then select
the action by interaction kind — `slash_action` for chat input; for context
menus the registered action kind and the resolved target kind must agree
(`User` action with resolved user, `Message` action with resolved message),
any other combination being a `CommandStructureMismatch`; an unrecognized kind
logs a warning and returns success without running anything. A successful
action is followed by the `post_command` hook; a panic inside the action
escapes `run_command` itself (only the dispatcher catches it). -/
def run_command (command : Cmd) (interaction : Interaction) (st : DispatchState) :
    PanicOr (Except FrameworkError Unit) × DispatchState :=
  match check_permissions_and_cooldown st with
  | (.error e, st1) => (.returned (.error e), st1)
  | (.ok _, st1) =>
    let st2 := { st1 with trace := st1.trace ++ [Event.preCommand] }
    match interaction.kind with
    | .chatInput =>
      match command.slash_action with
      | none =>
        (.returned (.error (.commandStructureMismatch structureMismatchDescription)), st2)
      | some b => finishAction (runAction b .ranSlashAction st2)
    | .user =>
      match command.context_menu_action, interaction.target with
      | some (.user b), some (.user _) => finishAction (runAction b .ranUserContextAction st2)
      | _, _ =>
        (.returned (.error (.commandStructureMismatch structureMismatchDescription)), st2)
    | .message =>
      match command.context_menu_action, interaction.target with
      | some (.message b), some (.message _) =>
        finishAction (runAction b .ranMessageContextAction st2)
      | _, _ =>
        (.returned (.error (.commandStructureMismatch structureMismatchDescription)), st2)
    | .unknown code =>
      (.returned (.ok ()),
        { st2 with trace := st2.trace ++ [Event.warnedUnknownCommandType code] })

/-- Modelled from the spec: `catch_unwind_maybe` is defined outside this corpus;
per §4.3 it runs the wrapped future under panic isolation, reporting either the
future's own result or the caught panic payload, never letting the panic
propagate further. -/
def catch_unwind_maybe {α : Type} (r : PanicOr α) : Except String α :=
  match r with
  | .panicked p => .error p
  | .returned a => .ok a

/-- Embedding of `dispatch_interaction` (src/dispatch/slash.rs:161-192): extract
the command, then run `run_command` under `catch_unwind_maybe`, converting a
caught panic into `FrameworkError::CommandPanic` carrying the payload. (The
source wraps the interaction in the `Autocomplete` variant at this call site.) -/
def dispatch_interaction (commands : List Cmd) (interaction : Interaction) (st : DispatchState) :
    Except FrameworkError Unit × DispatchState :=
  match extract_command commands (.autocomplete interaction) with
  | .error e => (.error e, st)
  | .ok (command, _, _) =>
    match run_command command interaction st with
    | (r, st2) =>
      match catch_unwind_maybe r with
      | .error payload => (.error (.commandPanic payload), st2)
      | .ok a => (a, st2)

/-- Focused option of an autocomplete interaction: the first option whose value
is an `Autocomplete` marker, together with the typed-so-far input
(src/dispatch/slash.rs:202-211). -/
def findFocusedOption : List ROption → Option (String × String)
  | [] => none
  | (n, RValue.autocomplete v) :: _ => some (n, v)
  | _ :: rest => findFocusedOption rest

/-- Embedding of `run_autocomplete` (src/dispatch/slash.rs:196-261): run the
pipeline; find the focused option — if none, log a warning and succeed; map its
name to a declared parameter — if none, fail with `CommandStructureMismatch`;
if the parameter declares no autocomplete callback, succeed silently; otherwise
invoke the callback — on error log and succeed; on a non-autocomplete
interaction log and succeed; finally transmit the response, logging but not
propagating a transmission failure. -/
def run_autocomplete (command : Cmd) (args : List ROption)
    (interaction : CommandOrAutocompleteInteraction) (st : DispatchState) :
    PanicOr (Except FrameworkError Unit) × DispatchState :=
  match check_permissions_and_cooldown st with
  | (.error e, st1) => (.returned (.error e), st1)
  | (.ok _, st1) =>
    match findFocusedOption args with
    | none =>
      (.returned (.ok ()), { st1 with trace := st1.trace ++ [Event.warnedNoFocusedOption] })
    | some (focused_name, input) =>
      match command.parameters.find? (fun p => p.name == focused_name) with
      | none =>
        (.returned (.error (.commandStructureMismatch
          "focused autocomplete parameter name not recognized")), st1)
      | some par =>
        match par.autocomplete_callback with
        | none => (.returned (.ok ()), st1)
        | some cb =>
          let st2 :=
            { st1 with trace := st1.trace ++ [Event.invokedAutocompleteCallback input] }
          match cb with
          | .panics p => (.panicked p, st2)
          | .err e =>
            (.returned (.ok ()),
              { st2 with trace := st2.trace ++ [Event.warnedAutocompleteError e] })
          | .ok response =>
            match interaction with
            | .command _ =>
              (.returned (.ok ()),
                { st2 with trace := st2.trace ++ [Event.warnedNonAutocompleteInteraction] })
            | .autocomplete _ =>
              match st2.send_result with
              | some e =>
                (.returned (.ok ()),
                  { st2 with trace := st2.trace ++ [Event.warnedAutocompleteSendError e] })
              | none =>
                (.returned (.ok ()),
                  { st2 with trace := st2.trace ++ [Event.sentAutocompleteResponse response] })

/-- Embedding of `dispatch_autocomplete` (src/dispatch/slash.rs:265-293): extract
the command, then run `run_autocomplete` under `catch_unwind_maybe`, converting
a caught panic into `FrameworkError::CommandPanic` carrying the payload. -/
def dispatch_autocomplete (commands : List Cmd) (interaction : Interaction) (st : DispatchState) :
    Except FrameworkError Unit × DispatchState :=
  match extract_command commands (.autocomplete interaction) with
  | .error e => (.error e, st)
  | .ok (command, leaf_options, _) =>
    match run_autocomplete command leaf_options (.autocomplete interaction) st with
    | (r, st2) =>
      match catch_unwind_maybe r with
      | .error payload => (.error (.commandPanic payload), st2)
      | .ok a => (a, st2)

/-- Modelled from the spec: the outer interaction dispatch path (wired in
`dispatch/mod.rs`, outside this corpus) first calls
`extract_command_and_run_checks` — failing fast before any deferred
acknowledgement is sent — and on success proceeds to `run_command`, which runs
the pipeline a second time immediately before handler selection (§4.2, §4.3). -/
def interaction_dispatch_path (commands : List Cmd) (interaction : Interaction)
    (st : DispatchState) : PanicOr (Except FrameworkError Unit) × DispatchState :=
  match extract_command_and_run_checks commands interaction st with
  | (.error e, st1) => (.returned (.error e), st1)
  | (.ok (command, _, _), st1) => run_command command interaction st1

/-- Whether an event is a check-pipeline invocation. -/
def isCheckEvent : Event → Bool
  | .checkInvoked => true
  | _ => false

/-- Number of check-pipeline invocations recorded in a trace. -/
def checkCount (t : List Event) : Nat := (t.filter isCheckEvent).length

/-- Whether an event is a handler run. -/
def isHandlerEvent : Event → Bool
  | .ranSlashAction => true
  | .ranUserContextAction => true
  | .ranMessageContextAction => true
  | _ => false

/-- Whether a trace records any handler run. -/
def handlerRan (t : List Event) : Bool := t.any isHandlerEvent

/-- Whether the next outcome of the modelled check pipeline is an allowance. -/
def firstCheckPasses : List (Option String) → Bool
  | [] => true
  | none :: _ => true
  | some _ :: _ => false

theorem check_trace (st : DispatchState) :
    (check_permissions_and_cooldown st).2.trace = st.trace ++ [Event.checkInvoked] := by
  unfold check_permissions_and_cooldown
  cases hcc : st.checks with
  | nil => rfl
  | cons head rest => cases head <;> rfl

theorem check_pass (st : DispatchState) (hc : firstCheckPasses st.checks = true) :
    check_permissions_and_cooldown st
      = (.ok (), ⟨st.checks.tail, st.send_result, st.trace ++ [Event.checkInvoked]⟩) := by
  unfold check_permissions_and_cooldown
  cases hcc : st.checks with
  | nil => simp
  | cons head rest =>
    cases head with
    | none => simp
    | some r => rw [hcc] at hc; simp [firstCheckPasses] at hc

theorem check_reject (st : DispatchState) (reason : String) (rest : List (Option String))
    (hcc : st.checks = some reason :: rest) :
    check_permissions_and_cooldown st
      = (.error (.checkRejection reason),
          ⟨rest, st.send_result, st.trace ++ [Event.checkInvoked]⟩) := by
  unfold check_permissions_and_cooldown
  rw [hcc]

theorem checkCount_append (t1 t2 : List Event) :
    checkCount (t1 ++ t2) = checkCount t1 + checkCount t2 := by
  simp [checkCount, List.filter_append]

theorem checkCount_nil : checkCount [] = 0 := rfl

theorem checkCount_cons (e : Event) (t : List Event) :
    checkCount (e :: t) = (if isCheckEvent e then 1 else 0) + checkCount t := by
  cases h : isCheckEvent e
  all_goals simp [checkCount, List.filter_cons, h]
  all_goals omega

theorem handlerRan_append (t1 t2 : List Event) :
    handlerRan (t1 ++ t2) = (handlerRan t1 || handlerRan t2) := by
  simp [handlerRan]

theorem runAction_trace (b : ActionBehavior) (ev : Event) (st : DispatchState) :
    (runAction b ev st).2.trace = st.trace ++ [ev] := by
  cases b <;> rfl

theorem finishAction_checkCount (r : PanicOr (Except String Unit) × DispatchState) :
    checkCount (finishAction r).2.trace = checkCount r.2.trace := by
  rcases r with ⟨r, st⟩
  cases r with
  | panicked p => rfl
  | returned a =>
    cases a with
    | error e => rfl
    | ok u => simp [finishAction, checkCount_append, checkCount, isCheckEvent]

theorem run_command_reject (command : Cmd) (interaction : Interaction) (st : DispatchState)
    (reason : String) (rest : List (Option String)) (hcc : st.checks = some reason :: rest) :
    run_command command interaction st
      = (.returned (.error (.checkRejection reason)),
          ⟨rest, st.send_result, st.trace ++ [Event.checkInvoked]⟩) := by
  unfold run_command
  rw [check_reject st reason rest hcc]

theorem run_command_checkCount (command : Cmd) (interaction : Interaction) (st : DispatchState) :
    checkCount (run_command command interaction st).2.trace = checkCount st.trace + 1 := by
  unfold run_command
  rcases hch : check_permissions_and_cooldown st with ⟨r, st1⟩
  have ht1 : st1.trace = st.trace ++ [Event.checkInvoked] := by
    have h := check_trace st
    rw [hch] at h
    exact h
  have hcc1 : checkCount st1.trace = checkCount st.trace + 1 := by
    rw [ht1]
    simp [checkCount_append, checkCount, isCheckEvent]
  cases r with
  | error e => simpa using hcc1
  | ok u =>
    cases hk : interaction.kind with
    | chatInput =>
      cases hsa : command.slash_action
      all_goals
        simp [finishAction_checkCount, runAction_trace, checkCount_append, checkCount_cons,
          checkCount_nil, isCheckEvent, hcc1]
    | user =>
      cases hca : command.context_menu_action with
      | none =>
        cases ht : interaction.target with
        | none =>
          simp [checkCount_append, checkCount_cons, checkCount_nil, isCheckEvent, hcc1]
        | some t =>
          cases t <;>
            simp [checkCount_append, checkCount_cons, checkCount_nil, isCheckEvent, hcc1]
      | some a =>
        cases a with
        | user b =>
          cases ht : interaction.target with
          | none =>
            simp [checkCount_append, checkCount_cons, checkCount_nil, isCheckEvent, hcc1]
          | some t =>
            cases t <;>
              simp [finishAction_checkCount, runAction_trace, checkCount_append,
                checkCount_cons, checkCount_nil, isCheckEvent, hcc1]
        | message b =>
          cases ht : interaction.target with
          | none =>
            simp [checkCount_append, checkCount_cons, checkCount_nil, isCheckEvent, hcc1]
          | some t =>
            cases t <;>
              simp [checkCount_append, checkCount_cons, checkCount_nil, isCheckEvent, hcc1]
    | message =>
      cases hca : command.context_menu_action with
      | none =>
        cases ht : interaction.target with
        | none =>
          simp [checkCount_append, checkCount_cons, checkCount_nil, isCheckEvent, hcc1]
        | some t =>
          cases t <;>
            simp [checkCount_append, checkCount_cons, checkCount_nil, isCheckEvent, hcc1]
      | some a =>
        cases a with
        | user b =>
          cases ht : interaction.target with
          | none =>
            simp [checkCount_append, checkCount_cons, checkCount_nil, isCheckEvent, hcc1]
          | some t =>
            cases t <;>
              simp [checkCount_append, checkCount_cons, checkCount_nil, isCheckEvent, hcc1]
        | message b =>
          cases ht : interaction.target with
          | none =>
            simp [checkCount_append, checkCount_cons, checkCount_nil, isCheckEvent, hcc1]
          | some t =>
            cases t <;>
              simp [finishAction_checkCount, runAction_trace, checkCount_append,
                checkCount_cons, checkCount_nil, isCheckEvent, hcc1]
    | unknown code =>
      simp [checkCount_append, checkCount_cons, checkCount_nil, isCheckEvent, hcc1]

/-- C5: if no node of the command tree matches the interaction's name/option
path, `dispatch_interaction` returns the `UnknownInteraction` error carrying
the original interaction and leaves the dispatch state untouched — in
particular neither the `pre_command` nor the `post_command` hook is invoked for
that event. -/
theorem unknown_interaction_surfaced (commands : List Cmd) (interaction : Interaction)
    (st : DispatchState)
    (h : (find_matching_command interaction.name interaction.options commands []).1 = none) :
    dispatch_interaction commands interaction st
      = (.error (.unknownInteraction (.autocomplete interaction)), st) := by
  rcases hfind : find_matching_command interaction.name interaction.options commands []
    with ⟨r, ps⟩
  rw [hfind] at h
  simp only at h
  subst h
  simp [dispatch_interaction, extract_command, CommandOrAutocompleteInteraction.data, hfind]

/-- Interaction of the C5 witness: name `"config"` with an unregistered
subcommand option `"unset"`. -/
def unsetInteraction : Interaction :=
  { name := "config", kind := .chatInput, target := none,
    options := [("unset", RValue.subCommand [])] }

/-- C5 witness: the spec scenario — tree `"config"`/`"set"`, interaction
`"config"` with subcommand-option `"unset"` — yields `UnknownInteraction` and
runs no hook. -/
theorem unknown_interaction_surfaced_witness :
    dispatch_interaction [configCmd] unsetInteraction ⟨[], none, []⟩
      = (.error (.unknownInteraction (.autocomplete unsetInteraction)), ⟨[], none, []⟩) :=
  unknown_interaction_surfaced [configCmd] unsetInteraction ⟨[], none, []⟩
    (by simp [unsetInteraction, find_matching_command, findSubOption, configCmd, setCmd,
      Cmd.name, Cmd.context_menu_name, Cmd.subcommands])

/-- C8: when `run_command` receives an interaction whose command type is none of
chat-input, user or message and the admission pipeline allows, it logs a
warning and returns success: the trace gains exactly the check invocation, the
`pre_command` hook and the warning — no handler run and no error. -/
theorem unknown_command_type_noop (command : Cmd) (interaction : Interaction)
    (st : DispatchState) (code : Nat)
    (hk : interaction.kind = .unknown code) (hc : firstCheckPasses st.checks = true) :
    (run_command command interaction st).1 = .returned (.ok ())
    ∧ (run_command command interaction st).2.trace
      = st.trace ++ [Event.checkInvoked, Event.preCommand,
          Event.warnedUnknownCommandType code] := by
  unfold run_command
  rw [check_pass st hc, hk]
  simp

/-- Interaction of the C8 witness: unrecognized command type `99`. -/
def unknownKindInteraction : Interaction :=
  { name := "u", kind := .unknown 99, target := none, options := [] }

/-- C8 witness: a concrete unrecognized-kind interaction is a successful no-op
with the warning on the trace. -/
theorem unknown_command_type_noop_witness :
    (run_command (Cmd.mk "u" none [] none none [] false) unknownKindInteraction
        ⟨[], none, []⟩).1 = .returned (.ok ())
    ∧ (run_command (Cmd.mk "u" none [] none none [] false) unknownKindInteraction
        ⟨[], none, []⟩).2.trace
      = [Event.checkInvoked, Event.preCommand, Event.warnedUnknownCommandType 99] := by
  exact unknown_command_type_noop (Cmd.mk "u" none [] none none [] false)
    unknownKindInteraction ⟨[], none, []⟩ 99 rfl rfl

/-- C3: a panic in the command handler is caught at the dispatch boundary: if
`run_command` ends in a panic with some payload, `dispatch_interaction` returns
the distinct `CommandPanic` error carrying that payload — the dispatcher's
return type has no panic outcome at all, so the panic cannot unwind into the
caller's stack — and the same containment holds for the autocomplete path via
`dispatch_autocomplete`. -/
theorem handler_panic_contained (commands : List Cmd) (interaction : Interaction)
    (st : DispatchState) (command : Cmd) (leaf_options : List ROption) (parents : List Cmd)
    (hex : extract_command commands (.autocomplete interaction)
      = .ok (command, leaf_options, parents)) :
    (∀ payload, (run_command command interaction st).1 = .panicked payload →
      (dispatch_interaction commands interaction st).1 = .error (.commandPanic payload))
    ∧ (∀ payload,
        (run_autocomplete command leaf_options (.autocomplete interaction) st).1
          = .panicked payload →
      (dispatch_autocomplete commands interaction st).1 = .error (.commandPanic payload)) := by
  constructor
  · intro payload hp
    rcases hrc : run_command command interaction st with ⟨r, st2⟩
    rw [hrc] at hp
    simp only at hp
    subst hp
    simp [dispatch_interaction, hex, hrc, catch_unwind_maybe]
  · intro payload hp
    rcases hrc : run_autocomplete command leaf_options (.autocomplete interaction) st
      with ⟨r, st2⟩
    rw [hrc] at hp
    simp only at hp
    subst hp
    simp [dispatch_autocomplete, hex, hrc, catch_unwind_maybe]

/-- Command of the C3 witness whose slash handler panics. -/
def panicCmd : Cmd := .mk "boom" none [] (some (.panics "kaboom")) none [] false

/-- Interaction of the C3 witness invoking the panicking slash handler. -/
def panicInteraction : Interaction :=
  { name := "boom", kind := .chatInput, target := none, options := [] }

/-- Parameter of the C3 witness whose autocomplete callback panics. -/
def acPanicParam : Param := { name := "q", autocomplete_callback := some (.panics "acboom") }

/-- Command of the C3 witness carrying the panicking autocomplete callback. -/
def acPanicCmd : Cmd := .mk "ac" none [] none none [acPanicParam] false

/-- Interaction of the C3 witness with a focused autocomplete option `"q"`. -/
def acPanicInteraction : Interaction :=
  { name := "ac", kind := .chatInput, target := none,
    options := [("q", RValue.autocomplete "ty")] }

/-- C3 witness: a slash handler panicking with `"kaboom"` surfaces as
`CommandPanic "kaboom"` from `dispatch_interaction`, and an autocomplete
callback panicking with `"acboom"` surfaces as `CommandPanic "acboom"` from
`dispatch_autocomplete`. -/
theorem handler_panic_contained_witness :
    (dispatch_interaction [panicCmd] panicInteraction ⟨[], none, []⟩).1
      = .error (.commandPanic "kaboom")
    ∧ (dispatch_autocomplete [acPanicCmd] acPanicInteraction ⟨[], none, []⟩).1
      = .error (.commandPanic "acboom") := by
  constructor
  · exact (handler_panic_contained [panicCmd] panicInteraction ⟨[], none, []⟩ panicCmd [] []
      (by simp [extract_command, CommandOrAutocompleteInteraction.data, find_matching_command,
        findSubOption, panicCmd, panicInteraction, Cmd.name, Cmd.context_menu_name])).1
      "kaboom" rfl
  · exact (handler_panic_contained [acPanicCmd] acPanicInteraction ⟨[], none, []⟩ acPanicCmd
      [("q", RValue.autocomplete "ty")] []
      (by simp [extract_command, CommandOrAutocompleteInteraction.data, find_matching_command,
        findSubOption, acPanicCmd, acPanicInteraction, Cmd.name, Cmd.context_menu_name])).2
      "acboom" rfl

/-- C4: for a context-menu interaction of kind `User`, `run_command` invokes the
handler exactly when the matched command registers a
`ContextMenuCommandAction::User` action and the interaction carries a resolved
user target; any mismatch between the declared action kind and the resolved
target kind yields a `CommandStructureMismatch` error — the state shows the
pipeline and the `pre_command` hook but no handler run, so it is not a silent
no-op — and the symmetric rule holds for `Message`-kind interactions. -/
theorem context_menu_action_target_agreement (command : Cmd) (interaction : Interaction)
    (st : DispatchState) (hc : firstCheckPasses st.checks = true) :
    (interaction.kind = .user →
      ((∃ b u, command.context_menu_action = some (.user b)
          ∧ interaction.target = some (.user u)) →
        Event.ranUserContextAction ∈ (run_command command interaction st).2.trace)
      ∧ ((∀ b u, ¬(command.context_menu_action = some (.user b)
          ∧ interaction.target = some (.user u))) →
        (run_command command interaction st).1
          = .returned (.error (.commandStructureMismatch structureMismatchDescription))
        ∧ (run_command command interaction st).2.trace
          = st.trace ++ [Event.checkInvoked, Event.preCommand]))
    ∧ (interaction.kind = .message →
      ((∃ b m, command.context_menu_action = some (.message b)
          ∧ interaction.target = some (.message m)) →
        Event.ranMessageContextAction ∈ (run_command command interaction st).2.trace)
      ∧ ((∀ b m, ¬(command.context_menu_action = some (.message b)
          ∧ interaction.target = some (.message m))) →
        (run_command command interaction st).1
          = .returned (.error (.commandStructureMismatch structureMismatchDescription))
        ∧ (run_command command interaction st).2.trace
          = st.trace ++ [Event.checkInvoked, Event.preCommand])) := by
  constructor
  · intro hk
    constructor
    · rintro ⟨b, u, hca, ht⟩
      unfold run_command
      rw [check_pass st hc]
      simp only [hk, hca, ht]
      cases b <;> simp [finishAction, runAction, List.mem_append]
    · intro hne
      unfold run_command
      rw [check_pass st hc]
      simp only [hk]
      rcases hca : command.context_menu_action with _ | a
      · rcases ht : interaction.target with _ | t
        · simp [List.append_assoc]
        · cases t <;> simp [List.append_assoc]
      · cases a with
        | user b =>
          rcases ht : interaction.target with _ | t
          · simp [List.append_assoc]
          · cases t with
            | user un => exact absurd ⟨hca, ht⟩ (hne b un)
            | message mid => simp [List.append_assoc]
        | message b =>
          rcases ht : interaction.target with _ | t
          · simp [List.append_assoc]
          · cases t <;> simp [List.append_assoc]
  · intro hk
    constructor
    · rintro ⟨b, m, hca, ht⟩
      unfold run_command
      rw [check_pass st hc]
      simp only [hk, hca, ht]
      cases b <;> simp [finishAction, runAction, List.mem_append]
    · intro hne
      unfold run_command
      rw [check_pass st hc]
      simp only [hk]
      rcases hca : command.context_menu_action with _ | a
      · rcases ht : interaction.target with _ | t
        · simp [List.append_assoc]
        · cases t <;> simp [List.append_assoc]
      · cases a with
        | user b =>
          rcases ht : interaction.target with _ | t
          · simp [List.append_assoc]
          · cases t <;> simp [List.append_assoc]
        | message b =>
          rcases ht : interaction.target with _ | t
          · simp [List.append_assoc]
          · cases t with
            | user un => simp [List.append_assoc]
            | message mid => exact absurd ⟨hca, ht⟩ (hne b mid)

/-- Command of the C4 witness registering only a message-context action. -/
def messageOnlyCmd : Cmd := .mk "menu" (some "menu") [] none (some (.message .ok)) [] false

/-- Command of the C4 witness registering a user-context action. -/
def userMenuCmd : Cmd := .mk "menu" (some "menu") [] none (some (.user .ok)) [] false

/-- Interaction of the C4 witness: kind `User` with a resolved user target. -/
def userKindInteraction : Interaction :=
  { name := "menu", kind := .user, target := some (.user "alice"), options := [] }

/-- C4 witness: the spec scenario — a user-kind context-menu interaction whose
matched node registers only a message-context action yields
`CommandStructureMismatch`, while a matching user-context action runs. -/
theorem context_menu_action_target_agreement_witness :
    (run_command messageOnlyCmd userKindInteraction ⟨[], none, []⟩).1
      = .returned (.error (.commandStructureMismatch structureMismatchDescription))
    ∧ Event.ranUserContextAction
      ∈ (run_command userMenuCmd userKindInteraction ⟨[], none, []⟩).2.trace := by
  constructor
  · exact (((context_menu_action_target_agreement messageOnlyCmd userKindInteraction
      ⟨[], none, []⟩ rfl).1 rfl).2 (by
        intro b u hbu
        rw [show messageOnlyCmd.context_menu_action = some (.message .ok) from rfl] at hbu
        exact Option.noConfusion (hbu.1) (fun h => CtxMenuAction.noConfusion h))).1
  · exact ((context_menu_action_target_agreement userMenuCmd userKindInteraction
      ⟨[], none, []⟩ rfl).1 rfl).1 ⟨.ok, "alice", rfl, rfl⟩

/-- Command of the C6 counterexample: it declares no parameters, so the focused
option's name cannot be recognized. -/
def acMismatchCmd : Cmd := .mk "ac" none [] none none [] false

/-- Interaction shared by the C6 theorems: focused autocomplete option `"q"`. -/
def acInteraction : Interaction :=
  { name := "ac", kind := .chatInput, target := none,
    options := [("q", RValue.autocomplete "ty")] }

/-- C6 counterexample: not every failure inside the autocomplete path is
downgraded to a log line — when the focused option's name matches no declared
parameter, `run_autocomplete` surfaces a `CommandStructureMismatch` error to
its caller instead of returning success. -/
theorem autocomplete_failure_surfaced_counterexample :
    (run_autocomplete acMismatchCmd [("q", RValue.autocomplete "ty")]
        (.autocomplete acInteraction) ⟨[], none, []⟩).1
      = .returned (.error (.commandStructureMismatch
          "focused autocomplete parameter name not recognized")) := rfl

/-- C6 (amended): the enumerated autocomplete failures — no option flagged as
focused, the suggestion generator returning an error, and a failure to
transmit the suggestion response — are each downgraded to a log line and a
no-op, `run_autocomplete` returning success; however, other failures in the
path are surfaced as errors: a check rejection propagates, and a focused
option whose name matches no declared parameter is a
`CommandStructureMismatch`. -/
theorem autocomplete_enumerated_failures_noop (command : Cmd) (args : List ROption)
    (i : Interaction) (st : DispatchState) (hc : firstCheckPasses st.checks = true) :
    (findFocusedOption args = none →
      (run_autocomplete command args (.autocomplete i) st).1 = .returned (.ok ())
      ∧ Event.warnedNoFocusedOption
        ∈ (run_autocomplete command args (.autocomplete i) st).2.trace)
    ∧ (∀ focused_name input par e,
        findFocusedOption args = some (focused_name, input) →
        command.parameters.find? (fun p => p.name == focused_name) = some par →
        par.autocomplete_callback = some (.err e) →
        (run_autocomplete command args (.autocomplete i) st).1 = .returned (.ok ())
        ∧ Event.warnedAutocompleteError e
          ∈ (run_autocomplete command args (.autocomplete i) st).2.trace)
    ∧ (∀ focused_name input par response e,
        findFocusedOption args = some (focused_name, input) →
        command.parameters.find? (fun p => p.name == focused_name) = some par →
        par.autocomplete_callback = some (.ok response) →
        st.send_result = some e →
        (run_autocomplete command args (.autocomplete i) st).1 = .returned (.ok ())
        ∧ Event.warnedAutocompleteSendError e
          ∈ (run_autocomplete command args (.autocomplete i) st).2.trace) := by
  refine ⟨?_, ?_, ?_⟩
  · intro hfo
    unfold run_autocomplete
    rw [check_pass st hc, hfo]
    simp
  · intro focused_name input par e hfo hfp hcb
    unfold run_autocomplete
    rw [check_pass st hc, hfo]
    simp only [hfp, hcb]
    simp
  · intro focused_name input par response e hfo hfp hcb hsend
    unfold run_autocomplete
    rw [check_pass st hc, hfo]
    simp only [hfp, hcb]
    simp [hsend]

/-- Parameter whose autocomplete callback fails, for the C6 witness. -/
def acErrParam : Param := { name := "q", autocomplete_callback := some (.err "bad") }

/-- Command carrying `acErrParam`, for the C6 witness. -/
def acErrCmd : Cmd := .mk "ac" none [] none none [acErrParam] false

/-- Parameter whose autocomplete callback succeeds, for the C6 witness. -/
def acOkParam : Param := { name := "q", autocomplete_callback := some (.ok "sugg") }

/-- Command carrying `acOkParam`, for the C6 witness. -/
def acOkCmd : Cmd := .mk "ac" none [] none none [acOkParam] false

/-- C6 witness: the three enumerated failures on concrete inputs — no focused
option, generator error, transmission failure — each return success. -/
theorem autocomplete_enumerated_failures_noop_witness :
    (run_autocomplete acErrCmd [("q", RValue.scalar "v")] (.autocomplete acInteraction)
        ⟨[], none, []⟩).1 = .returned (.ok ())
    ∧ (run_autocomplete acErrCmd [("q", RValue.autocomplete "ty")]
        (.autocomplete acInteraction) ⟨[], none, []⟩).1 = .returned (.ok ())
    ∧ (run_autocomplete acOkCmd [("q", RValue.autocomplete "ty")]
        (.autocomplete acInteraction) ⟨[], some "net", []⟩).1 = .returned (.ok ()) := by
  refine ⟨?_, ?_, ?_⟩
  · exact ((autocomplete_enumerated_failures_noop acErrCmd [("q", RValue.scalar "v")]
      acInteraction ⟨[], none, []⟩ rfl).1 rfl).1
  · exact ((autocomplete_enumerated_failures_noop acErrCmd [("q", RValue.autocomplete "ty")]
      acInteraction ⟨[], none, []⟩ rfl).2.1 "q" "ty" acErrParam "bad" rfl rfl rfl).1
  · exact ((autocomplete_enumerated_failures_noop acOkCmd [("q", RValue.autocomplete "ty")]
      acInteraction ⟨[], some "net", []⟩ rfl).2.2 "q" "ty" acOkParam "sugg" "net"
      rfl rfl rfl rfl).1

theorem path_after_pass (commands : List Cmd) (interaction : Interaction) (command : Cmd)
    (leaf_options : List ROption) (parents : List Cmd) (st : DispatchState)
    (hex : extract_command commands (.command interaction) = .ok (command, leaf_options, parents))
    (hc : firstCheckPasses st.checks = true) :
    interaction_dispatch_path commands interaction st
      = run_command command interaction
          ⟨st.checks.tail, st.send_result, st.trace ++ [Event.checkInvoked]⟩ := by
  unfold interaction_dispatch_path extract_command_and_run_checks
  rw [hex, check_pass st hc]

theorem path_after_reject (commands : List Cmd) (interaction : Interaction) (command : Cmd)
    (leaf_options : List ROption) (parents : List Cmd) (st : DispatchState)
    (reason : String) (rest : List (Option String))
    (hex : extract_command commands (.command interaction) = .ok (command, leaf_options, parents))
    (hcc : st.checks = some reason :: rest) :
    interaction_dispatch_path commands interaction st
      = (.returned (.error (.checkRejection reason)),
          ⟨rest, st.send_result, st.trace ++ [Event.checkInvoked]⟩) := by
  unfold interaction_dispatch_path extract_command_and_run_checks
  rw [hex, check_reject st reason rest hcc]

/-- C2: in the outer interaction dispatch path the admission pipeline is invoked
at two distinct checkpoints — once inside `extract_command_and_run_checks`
(resolution-and-authorization, before any deferred acknowledgement) and once
inside `run_command` immediately before handler selection: whenever a handler
runs, the trace records exactly two pipeline invocations, and a rejection at
either checkpoint yields the rejection error with a trace containing no
handler run. -/
theorem check_pipeline_double_invocation (commands : List Cmd) (interaction : Interaction)
    (command : Cmd) (leaf_options : List ROption) (parents : List Cmd)
    (checks : List (Option String)) (send_result : Option String)
    (hex : extract_command commands (.command interaction)
      = .ok (command, leaf_options, parents)) :
    (handlerRan (interaction_dispatch_path commands interaction
        ⟨checks, send_result, []⟩).2.trace = true →
      checkCount (interaction_dispatch_path commands interaction
        ⟨checks, send_result, []⟩).2.trace = 2)
    ∧ (∀ reason rest, checks = some reason :: rest →
      interaction_dispatch_path commands interaction ⟨checks, send_result, []⟩
        = (.returned (.error (.checkRejection reason)),
            ⟨rest, send_result, [Event.checkInvoked]⟩))
    ∧ (∀ reason rest, checks = none :: some reason :: rest →
      interaction_dispatch_path commands interaction ⟨checks, send_result, []⟩
        = (.returned (.error (.checkRejection reason)),
            ⟨rest, send_result, [Event.checkInvoked, Event.checkInvoked]⟩))
    ∧ handlerRan [Event.checkInvoked] = false
    ∧ handlerRan [Event.checkInvoked, Event.checkInvoked] = false := by
  refine ⟨?_, ?_, ?_, rfl, rfl⟩
  · cases checks with
    | nil =>
      intro hh
      rw [path_after_pass commands interaction command leaf_options parents
        ⟨[], send_result, []⟩ hex rfl, run_command_checkCount]
      simp [checkCount_cons, checkCount_nil, isCheckEvent]
    | cons head tail =>
      cases head with
      | none =>
        intro hh
        rw [path_after_pass commands interaction command leaf_options parents
          ⟨none :: tail, send_result, []⟩ hex rfl, run_command_checkCount]
        simp [checkCount_cons, checkCount_nil, isCheckEvent]
      | some r =>
        intro hh
        exfalso
        rw [path_after_reject commands interaction command leaf_options parents
          ⟨some r :: tail, send_result, []⟩ r tail hex rfl] at hh
        simp [handlerRan, isHandlerEvent] at hh
  · intro reason rest hcc
    subst hcc
    exact path_after_reject commands interaction command leaf_options parents
      ⟨some reason :: rest, send_result, []⟩ reason rest hex rfl
  · intro reason rest hcc
    subst hcc
    rw [path_after_pass commands interaction command leaf_options parents
      ⟨none :: some reason :: rest, send_result, []⟩ hex rfl]
    exact run_command_reject command interaction
      ⟨some reason :: rest, send_result, [Event.checkInvoked]⟩ reason rest rfl

/-- Command of the C2 witness. -/
def wCmd : Cmd := .mk "w" none [] (some .ok) none [] false

/-- Interaction of the C2 witness. -/
def wInteraction : Interaction :=
  { name := "w", kind := .chatInput, target := none, options := [] }

/-- C2 witness: on a concrete dispatch whose handler runs and both checks pass,
the trace records exactly two pipeline invocations. -/
theorem check_pipeline_double_invocation_witness :
    checkCount (interaction_dispatch_path [wCmd] wInteraction ⟨[], none, []⟩).2.trace = 2 := by
  have hex : extract_command [wCmd] (.command wInteraction) = .ok (wCmd, [], []) := by
    simp [extract_command, CommandOrAutocompleteInteraction.data, find_matching_command,
      findSubOption, wCmd, wInteraction, Cmd.name, Cmd.context_menu_name]
  refine (check_pipeline_double_invocation [wCmd] wInteraction wCmd [] [] [] none hex).1 ?_
  rw [path_after_pass [wCmd] wInteraction wCmd [] [] ⟨[], none, []⟩ hex rfl]
  rfl

/-- Reply builder (`CreateReply`, src/reply/builder.rs:7-24); the embed,
attachment, component and allowed-mentions payloads are abstracted to opaque
strings, which the builder only stores. -/
structure CreateReply : Type where
  content : Option String
  embeds : List String
  attachments : List String
  ephemeral : Option Bool
  components : Option (List String)
  allowed_mentions : Option String
  reply : Bool

/-- Context data read by `complete_from_ctx`: the resolved command's ephemeral
default (`ctx.command().ephemeral`), the framework-wide allowed-mentions
setting, and the optional framework `reply_callback` (with its context
argument already applied, leaving a builder transformer). -/
structure ReplyContext : Type where
  command_ephemeral : Bool
  framework_allowed_mentions : Option String
  reply_callback : Option (CreateReply → CreateReply)

/-- Embedding of `CreateReply::complete_from_ctx` (src/reply/builder.rs:92-101):
fill `ephemeral` from the command's default only when unset
(`Option::get_or_insert`), fill `allowed_mentions` from the framework-wide
setting only when that setting exists and the field is unset, then apply the
framework `reply_callback` when one is configured. -/
def CreateReply.complete_from_ctx (self : CreateReply) (ctx : ReplyContext) : CreateReply :=
  let step1 : CreateReply :=
    { self with ephemeral := some (self.ephemeral.getD ctx.command_ephemeral) }
  let step2 : CreateReply :=
    match ctx.framework_allowed_mentions with
    | some am => { step1 with allowed_mentions := some (step1.allowed_mentions.getD am) }
    | none => step1
  match ctx.reply_callback with
  | some cb => cb step2
  | none => step2

/-- C10: `complete_from_ctx` never overwrites caller-set fields: the resulting
`ephemeral` is the caller's value when already set and the command's default
otherwise, `allowed_mentions` is the caller's value when already set and the
framework-wide setting otherwise, and with no configured `reply_callback`
every other field passes through unchanged; with a configured callback the
result is exactly that callback applied to the otherwise-completed builder. -/
theorem complete_from_ctx_preserves_caller_fields (self : CreateReply) (ctx : ReplyContext) :
    (ctx.reply_callback = none →
      (self.complete_from_ctx ctx).ephemeral = some (self.ephemeral.getD ctx.command_ephemeral)
      ∧ (self.complete_from_ctx ctx).allowed_mentions
        = (match self.allowed_mentions with
           | some m => some m
           | none => ctx.framework_allowed_mentions)
      ∧ (self.complete_from_ctx ctx).content = self.content
      ∧ (self.complete_from_ctx ctx).embeds = self.embeds
      ∧ (self.complete_from_ctx ctx).attachments = self.attachments
      ∧ (self.complete_from_ctx ctx).components = self.components
      ∧ (self.complete_from_ctx ctx).reply = self.reply)
    ∧ (∀ cb, ctx.reply_callback = some cb →
      self.complete_from_ctx ctx
        = cb (self.complete_from_ctx { ctx with reply_callback := none })) := by
  constructor
  · intro hcb
    unfold CreateReply.complete_from_ctx
    rw [hcb]
    cases ham : ctx.framework_allowed_mentions <;> cases hsm : self.allowed_mentions <;>
      simp [hsm]
  · intro cb hcb
    unfold CreateReply.complete_from_ctx
    rw [hcb]

/-- Builder of the C10 witness, with `ephemeral` and `allowed_mentions` already
set by the caller. -/
def sampleReply : CreateReply :=
  { content := some "hi", embeds := ["e1"], attachments := [], ephemeral := some false,
    components := none, allowed_mentions := some "callers", reply := true }

/-- Context of the C10 witness, with a framework-wide allowed-mentions setting
and no reply callback. -/
def sampleReplyCtx : ReplyContext :=
  { command_ephemeral := true, framework_allowed_mentions := some "fw",
    reply_callback := none }

/-- Callback of the C10 witness. -/
def sampleCallback : CreateReply → CreateReply :=
  fun r => { r with content := some "cb" }

/-- Context of the C10 witness with a configured reply callback. -/
def sampleReplyCtxCb : ReplyContext :=
  { command_ephemeral := true, framework_allowed_mentions := none,
    reply_callback := some sampleCallback }

/-- C10 witness: on concrete data the caller's `ephemeral` and
`allowed_mentions` survive completion, and with a callback configured the
result is the callback applied to the completed builder. -/
theorem complete_from_ctx_preserves_caller_fields_witness :
    (sampleReply.complete_from_ctx sampleReplyCtx).ephemeral = some false
    ∧ (sampleReply.complete_from_ctx sampleReplyCtx).allowed_mentions = some "callers"
    ∧ sampleReply.complete_from_ctx sampleReplyCtxCb
      = sampleCallback (sampleReply.complete_from_ctx
          { sampleReplyCtxCb with reply_callback := none }) := by
  have h := (complete_from_ctx_preserves_caller_fields sampleReply sampleReplyCtx).1 rfl
  exact ⟨by rw [h.1]; rfl, by rw [h.2.1]; rfl,
    (complete_from_ctx_preserves_caller_fields sampleReply sampleReplyCtxCb).2
      sampleCallback rfl⟩

end Poise
